import Mathlib

/-!
Verification of the role-based student-records application (src/app.py).

The Python source is shallowly embedded: Flask session state becomes an
explicit record of optional string fields, the Firebase Identity Gateway
and User Directory become function-valued parameters, and the Record
Store becomes an association list keyed by slash-delimited path strings.
Each route handler becomes a pure function from its inputs (session,
form fields, store, clock) to its outputs (new store, response, trace of
store reads), following the source line by line.
-/

/-- Model of Python `str.strip()`'s default whitespace test for a single
character: space, tab, newline, carriage return, vertical tab, form feed. -/
def pyIsSpace (c : Char) : Bool :=
  c = ' ' || c = '\t' || c = '\n' || c = '\r' || c = Char.ofNat 11 || c = Char.ofNat 12

/-- Drop the longest whitespace run at the head of a character list. -/
def dropSpaces : List Char → List Char
  | [] => []
  | c :: cs => if pyIsSpace c then dropSpaces cs else c :: cs

/-- Model of Python `str.strip()`: remove leading and trailing whitespace. -/
def pyStrip (s : String) : String :=
  ⟨(dropSpaces (dropSpaces s.data).reverse).reverse⟩

/-- Model of Python `str.isalnum()` on one character (letters and digits). -/
def pyIsAlnum (c : Char) : Bool :=
  c.isAlphanum

/-- One character of the sanitization in `student_key_from_name`
(src/app.py line 37): keep alphanumerics, replace everything else by `_`. -/
def sanitizeChar (c : Char) : Char :=
  if pyIsAlnum c then c else '_'

/-- `student_key_from_name` (src/app.py lines 36-37):
`"".join(ch if ch.isalnum() else "_" for ch in name.strip())`. -/
def student_key_from_name (name : String) : String :=
  ⟨(pyStrip name).data.map sanitizeChar⟩

theorem alnum_not_space (c : Char) (h : pyIsAlnum c = true) : pyIsSpace c = false := by
  by_contra hc
  rw [Bool.not_eq_false] at hc
  unfold pyIsSpace at hc
  simp only [Bool.or_eq_true, decide_eq_true_eq] at hc
  rcases hc with ((((h1 | h1) | h1) | h1) | h1) | h1 <;> (subst h1; exact absurd h (by decide))

theorem sanitizeChar_not_space (c : Char) : pyIsSpace (sanitizeChar c) = false := by
  unfold sanitizeChar
  by_cases h : pyIsAlnum c = true
  · rw [if_pos h]; exact alnum_not_space c h
  · rw [if_neg h]; decide

theorem sanitizeChar_idem (c : Char) : sanitizeChar (sanitizeChar c) = sanitizeChar c := by
  unfold sanitizeChar
  by_cases h : pyIsAlnum c = true
  · rw [if_pos h, if_pos h]
  · rw [if_neg h]; decide

theorem dropSpaces_eq_self (l : List Char) (h : ∀ c ∈ l, pyIsSpace c = false) :
    dropSpaces l = l := by
  cases l with
  | nil => rfl
  | cons c cs =>
    unfold dropSpaces
    rw [if_neg]
    simp only [h c (List.mem_cons_self c cs), Bool.false_eq_true, not_false_eq_true]

theorem pyStrip_eq_self (s : String) (h : ∀ c ∈ s.data, pyIsSpace c = false) :
    pyStrip s = s := by
  unfold pyStrip
  rw [dropSpaces_eq_self s.data h]
  rw [dropSpaces_eq_self s.data.reverse (fun c hc => h c (List.mem_reverse.mp hc))]
  rw [List.reverse_reverse]

/-- C4: name sanitization is idempotent — sanitizing an already-sanitized
name yields the same string — and on the concrete input `"Jane Doe!"` the
derived key is `"Jane_Doe_"`. -/
theorem sanitize_idempotent :
    (∀ n : String, student_key_from_name (student_key_from_name n) = student_key_from_name n)
    ∧ student_key_from_name "Jane Doe!" = "Jane_Doe_" := by
  constructor
  · intro n
    unfold student_key_from_name
    rw [pyStrip_eq_self ⟨(pyStrip n).data.map sanitizeChar⟩ ?_]
    · show (⟨((pyStrip n).data.map sanitizeChar).map sanitizeChar⟩ : String) = _
      rw [List.map_map]
      congr 1
      exact List.map_congr_left (fun c _ => sanitizeChar_idem c)
    · intro c hc
      rcases List.mem_map.mp hc with ⟨d, _, hd⟩
      rw [← hd]
      exact sanitizeChar_not_space d
  · decide

/-- Flask session state relevant to the app: the six keys written by
`login` (src/app.py lines 70-77). `none` models an absent key
(`session.get` returning `None`). -/
structure SessionState where
  uid : Option String
  idToken : Option String
  refreshToken : Option String
  role : Option String
  assignedClass : Option String
  assignedSection : Option String
deriving DecidableEq, Repr

/-- The empty (anonymous) session: no keys set. -/
def SessionState.anonymous : SessionState :=
  ⟨none, none, none, none, none, none⟩

/-- The successful JSON body of the Identity Gateway call
`firebase_sign_in` (src/app.py lines 27-31): `localId`, `idToken`, and an
optional `refreshToken` (read with `res.get`). -/
structure SignInOk where
  localId : String
  idToken : String
  refreshToken : Option String
deriving DecidableEq, Repr

/-- The Identity Gateway as an oracle: `none` models the `{"error": ...}`
response (non-200 status), `some` the success body. -/
def Gateway : Type :=
  String → String → Option SignInOk

/-- One User Directory entry as stored under `users/{uid}`: a dict whose
keys are read with `meta.get`, so each field is optional. -/
structure UserMeta where
  role : Option String
  assignedClass : Option String
  assignedSection : Option String
deriving DecidableEq, Repr

/-- The User Directory (`get_user_metadata`, src/app.py lines 33-34) as an
oracle: `none` models a missing or falsy (`{}`) entry, which the source
tests with `if not meta`. -/
def Directory : Type :=
  String → Option UserMeta

/-- Outcome of a POST to `/login` (src/app.py lines 48-80): the session
state afterwards, whether the Identity Gateway was contacted, and whether
the request ended in the success redirect to `/dashboard`. -/
structure LoginOutcome where
  sess : SessionState
  gatewayCalled : Bool
  success : Bool
deriving DecidableEq, Repr

/-- POST `/login` (src/app.py lines 48-80). Form fields are optional
(`request.form.get(k, "")` defaults a missing field to `""`), then
stripped; empty email or password short-circuits before the gateway call;
a gateway error or missing directory entry redirects back to `/login`
leaving the session as it was; otherwise `session.update` stores the six
keys, with `assignedClass`/`assignedSection` defaulted to `""`. -/
def login_post (gw : Gateway) (dir : Directory)
    (emailField passwordField : Option String) (s : SessionState) : LoginOutcome :=
  let email := pyStrip (emailField.getD "")
  let password := pyStrip (passwordField.getD "")
  if email = "" ∨ password = "" then
    ⟨s, false, false⟩
  else
    match gw email password with
    | none => ⟨s, true, false⟩
    | some res =>
      match dir res.localId with
      | none => ⟨s, true, false⟩
      | some meta =>
        ⟨{ uid := some res.localId
           idToken := some res.idToken
           refreshToken := res.refreshToken
           role := meta.role
           assignedClass := some (meta.assignedClass.getD "")
           assignedSection := some (meta.assignedSection.getD "") },
         true, true⟩

/-- C3: whenever every gateway acceptance of the stripped credentials
leads to a missing User Directory entry — covering both a gateway
rejection (no `res` at all) and the `MetadataMissing` case — the login
attempt creates no session: the stored session state is unchanged and the
request does not end in the success redirect. -/
theorem login_failure_preserves_session (gw : Gateway) (dir : Directory)
    (emailField passwordField : Option String) (s : SessionState)
    (h : ∀ res, gw (pyStrip (emailField.getD "")) (pyStrip (passwordField.getD "")) = some res →
      dir res.localId = none) :
    (login_post gw dir emailField passwordField s).sess = s ∧
    (login_post gw dir emailField passwordField s).success = false := by
  unfold login_post
  by_cases he : pyStrip (emailField.getD "") = "" ∨ pyStrip (passwordField.getD "") = ""
  · rw [if_pos he]; exact ⟨rfl, rfl⟩
  · rw [if_neg he]
    cases hg : gw (pyStrip (emailField.getD "")) (pyStrip (passwordField.getD "")) with
    | none => exact ⟨rfl, rfl⟩
    | some res =>
      simp only [h res hg]
      exact ⟨trivial, trivial⟩

/-- C3 witness: a gateway that rejects everything leaves a concrete
session untouched. -/
theorem login_failure_preserves_session_witness :
    ((login_post (fun _ _ => none) (fun _ => none) (some "a@b.c") (some "pw")
        SessionState.anonymous).sess = SessionState.anonymous ∧
     (login_post (fun _ _ => none) (fun _ => none) (some "a@b.c") (some "pw")
        SessionState.anonymous).success = false) :=
  login_failure_preserves_session (fun _ _ => none) (fun _ => none)
    (some "a@b.c") (some "pw") SessionState.anonymous (fun _ h => by simp at h)

/-- C8: when the stripped credentials are non-empty, the gateway accepts
them, and the User Directory has an entry for the returned identifier,
login succeeds and the session's role, assignedClass and assignedSection
are exactly the directory's stored values — the role verbatim, and the
assignment fields defaulted to `""` exactly when the entry omits them. -/
theorem login_success_copies_directory (gw : Gateway) (dir : Directory)
    (emailField passwordField : Option String) (s : SessionState)
    (res : SignInOk) (meta : UserMeta)
    (hemail : pyStrip (emailField.getD "") ≠ "")
    (hpassword : pyStrip (passwordField.getD "") ≠ "")
    (hgw : gw (pyStrip (emailField.getD "")) (pyStrip (passwordField.getD "")) = some res)
    (hdir : dir res.localId = some meta) :
    (login_post gw dir emailField passwordField s).success = true ∧
    (login_post gw dir emailField passwordField s).sess.uid = some res.localId ∧
    (login_post gw dir emailField passwordField s).sess.role = meta.role ∧
    (login_post gw dir emailField passwordField s).sess.assignedClass
      = some (meta.assignedClass.getD "") ∧
    (login_post gw dir emailField passwordField s).sess.assignedSection
      = some (meta.assignedSection.getD "") := by
  unfold login_post
  rw [if_neg (by tauto)]
  simp only [hgw]
  simp only [hdir]
  exact ⟨trivial, trivial, trivial, trivial, trivial⟩

/-- C8 witness: a concrete gateway and directory entry (one that omits
`assignedSection`) produce a session mirroring the directory. -/
theorem login_success_copies_directory_witness :
    ((login_post (fun _ _ => some ⟨"u1", "tok", none⟩)
        (fun _ => some ⟨some "teacher", some "5", none⟩)
        (some "t@s.edu") (some "pw") SessionState.anonymous).success = true ∧
     (login_post (fun _ _ => some ⟨"u1", "tok", none⟩)
        (fun _ => some ⟨some "teacher", some "5", none⟩)
        (some "t@s.edu") (some "pw") SessionState.anonymous).sess.uid = some "u1" ∧
     (login_post (fun _ _ => some ⟨"u1", "tok", none⟩)
        (fun _ => some ⟨some "teacher", some "5", none⟩)
        (some "t@s.edu") (some "pw") SessionState.anonymous).sess.role = some "teacher" ∧
     (login_post (fun _ _ => some ⟨"u1", "tok", none⟩)
        (fun _ => some ⟨some "teacher", some "5", none⟩)
        (some "t@s.edu") (some "pw") SessionState.anonymous).sess.assignedClass = some "5" ∧
     (login_post (fun _ _ => some ⟨"u1", "tok", none⟩)
        (fun _ => some ⟨some "teacher", some "5", none⟩)
        (some "t@s.edu") (some "pw") SessionState.anonymous).sess.assignedSection = some "") := by
  have h := login_success_copies_directory (fun _ _ => some ⟨"u1", "tok", none⟩)
    (fun _ => some ⟨some "teacher", some "5", none⟩)
    (some "t@s.edu") (some "pw") SessionState.anonymous
    ⟨"u1", "tok", none⟩ ⟨some "teacher", some "5", none⟩
    (by decide) (by decide) rfl rfl
  exact h

/-- C10: a missing, empty, or whitespace-only email or password field makes
login fail at the form boundary: the Identity Gateway is never contacted,
the stored session is unchanged, and no success redirect happens. -/
theorem login_blank_fields_never_reach_gateway (gw : Gateway) (dir : Directory)
    (emailField passwordField : Option String) (s : SessionState)
    (h : pyStrip (emailField.getD "") = "" ∨ pyStrip (passwordField.getD "") = "") :
    (login_post gw dir emailField passwordField s).gatewayCalled = false ∧
    (login_post gw dir emailField passwordField s).sess = s ∧
    (login_post gw dir emailField passwordField s).success = false := by
  unfold login_post
  rw [if_pos h]
  exact ⟨rfl, rfl, rfl⟩

/-- C10 witness: a missing email field (with a whitespace-only password,
for good measure) never reaches a gateway that would accept anything. -/
theorem login_blank_fields_never_reach_gateway_witness :
    ((login_post (fun _ _ => some ⟨"u1", "tok", none⟩) (fun _ => none)
        none (some "  ") SessionState.anonymous).gatewayCalled = false ∧
     (login_post (fun _ _ => some ⟨"u1", "tok", none⟩) (fun _ => none)
        none (some "  ") SessionState.anonymous).sess = SessionState.anonymous ∧
     (login_post (fun _ _ => some ⟨"u1", "tok", none⟩) (fun _ => none)
        none (some "  ") SessionState.anonymous).success = false) :=
  login_blank_fields_never_reach_gateway (fun _ _ => some ⟨"u1", "tok", none⟩)
    (fun _ => none) none (some "  ") SessionState.anonymous (Or.inl (by decide))

/-- One student record as built by `add_student` (src/app.py lines
154-162): the payload dict always carries these seven keys. -/
structure StudentPayload where
  name : String
  specialNeeds : String
  progress : String
  accommodations : String
  notes : String
  createdBy : Option String
  lastUpdated : Nat
deriving DecidableEq, Repr

/-- The Record Store: an association list from slash-delimited path
strings (as produced by the f-string `Classes/{c}/{s}/{k}`) to student
payloads. The head entry for a path shadows older ones. -/
abbrev Store : Type :=
  List (String × StudentPayload)

/-- `db.reference(path).set(value)`: full replace of whatever was at
`path` before. -/
def Store.set (st : Store) (path : String) (v : StudentPayload) : Store :=
  (path, v) :: st.filter (fun e => e.1 ≠ path)

/-- `db.reference(path).get()` at an exact path. -/
def Store.get (st : Store) (path : String) : Option StudentPayload :=
  (List.find? (fun e => e.1 = path) st).map Prod.snd

/-- How Python renders a value inside an f-string: `None` prints as the
string `"None"`, a string prints verbatim. `session.get("assignedClass")`
has no default, so a missing key reaches the f-string as `None`. -/
def pyStr : Option String → String
  | none => "None"
  | some s => s

/-- The form fields of POST `/add_student`, each optional (missing fields
default to `""` via `request.form.get`). `class` and `section` are Lean
keywords, hence the `Field` suffix. -/
structure AddForm where
  classField : Option String
  sectionField : Option String
  nameField : Option String
  specialNeeds : Option String
  progress : Option String
  accommodations : Option String
  notes : Option String
deriving DecidableEq, Repr

/-- The f-string path `Classes/{target_class}/{target_section}/{key}`
(src/app.py line 163). -/
def studentPath (c s k : String) : String :=
  "Classes/" ++ c ++ "/" ++ s ++ "/" ++ k

/-- Target class of a POST to `/add_student` (src/app.py lines 146-150):
the session's own assignment for a teacher, the stripped form field for
everyone else. -/
def targetClass (sess : SessionState) (form : AddForm) : String :=
  if sess.role = some "teacher" then pyStr sess.assignedClass
  else pyStrip (form.classField.getD "")

/-- Target section of a POST to `/add_student` (src/app.py lines 146-151). -/
def targetSection (sess : SessionState) (form : AddForm) : String :=
  if sess.role = some "teacher" then pyStr sess.assignedSection
  else pyStrip (form.sectionField.getD "")

/-- The path written by a POST to `/add_student` (src/app.py lines
152-153 and 163): key derived from the stripped `name` field. -/
def addPath (sess : SessionState) (form : AddForm) : String :=
  studentPath (targetClass sess form) (targetSection sess form)
    (student_key_from_name (pyStrip (form.nameField.getD "")))

/-- The payload written by a POST to `/add_student` (src/app.py lines
154-162): stripped form fields, `createdBy` from the session's uid,
`lastUpdated` from the clock. -/
def addPayload (sess : SessionState) (form : AddForm) (now : Nat) : StudentPayload :=
  { name := pyStrip (form.nameField.getD "")
    specialNeeds := pyStrip (form.specialNeeds.getD "")
    progress := pyStrip (form.progress.getD "")
    accommodations := pyStrip (form.accommodations.getD "")
    notes := pyStrip (form.notes.getD "")
    createdBy := sess.uid
    lastUpdated := now }

/-- POST `/add_student` (src/app.py lines 144-165): unconditionally
writes the payload at the derived path (full replace) and returns the new
store together with the path written. No validation rejects the request. -/
def add_student_post (sess : SessionState) (form : AddForm) (now : Nat)
    (st : Store) : Store × String :=
  (st.set (addPath sess form) (addPayload sess form now), addPath sess form)

/-- Reading back the path just set yields the new value (full replace). -/
theorem Store.get_set_self (st : Store) (path : String) (v : StudentPayload) :
    (st.set path v).get path = some v := by
  unfold Store.set Store.get
  rw [List.find?_cons_of_pos]
  · rfl
  · simp

/-- Redirect target of GET `/dashboard` (src/app.py lines 101-108). -/
inductive DashboardTarget where
  | counselorView
  | teacherView
deriving DecidableEq, Repr

/-- GET `/dashboard` (src/app.py lines 101-108): counselor role goes to
the counselor view, every other role to the teacher view. -/
def dashboard (sess : SessionState) : DashboardTarget :=
  if sess.role = some "counselor" then DashboardTarget.counselorView
  else DashboardTarget.teacherView

/-- All records under a path, as Firebase returns for a non-leaf
reference: the entries of the store whose path extends `root ++ "/"`. -/
def Store.subtree (st : Store) (root : String) : Store :=
  st.filter (fun e => String.isPrefixOf (root ++ "/") e.1)

/-- Response of the role-gated dashboards `/teacher` and `/counselor`
(src/app.py lines 111-139): either the redirect to `/dashboard` issued on
a role mismatch, or a rendered page carrying the data that was read. -/
inductive PageResponse where
  | redirectDashboard
  | teacherPage (students : Store)
  | counselorPage (allStudents : Store)
deriving DecidableEq, Repr

/-- GET `/teacher` (src/app.py lines 111-125): a non-teacher session is
redirected before any store access; a teacher session reads exactly
`Classes/{assignedClass}/{assignedSection}`. The second component lists
the store paths read while handling the request. -/
def teacher_dashboard (sess : SessionState) (st : Store) : PageResponse × List String :=
  if sess.role ≠ some "teacher" then
    (PageResponse.redirectDashboard, [])
  else
    let path := "Classes/" ++ pyStr sess.assignedClass ++ "/" ++ pyStr sess.assignedSection
    (PageResponse.teacherPage (st.subtree path), [path])

/-- GET `/counselor` (src/app.py lines 128-139): a non-counselor session
is redirected before any store access; a counselor session reads the
whole `Classes` subtree. -/
def counselor_dashboard (sess : SessionState) (st : Store) : PageResponse × List String :=
  if sess.role ≠ some "counselor" then
    (PageResponse.redirectDashboard, [])
  else
    (PageResponse.counselorPage (st.subtree "Classes"), ["Classes"])

/-- C1: for a teacher session assigned `(C, S)`, the `/add_student` write
path is `Classes/C/S/{key}` with the key derived from the name field
alone; two requests that agree on the name field — whatever class/section
fields they carry — write to the same path. -/
theorem teacher_write_path_fixed (sess : SessionState) (C S : String)
    (hrole : sess.role = some "teacher")
    (hC : sess.assignedClass = some C) (hS : sess.assignedSection = some S)
    (f1 f2 : AddForm) (n1 n2 : Nat) (st1 st2 : Store)
    (hname : f1.nameField = f2.nameField) :
    (add_student_post sess f1 n1 st1).2
      = studentPath C S (student_key_from_name (pyStrip (f1.nameField.getD ""))) ∧
    (add_student_post sess f1 n1 st1).2 = (add_student_post sess f2 n2 st2).2 := by
  constructor
  · simp [add_student_post, addPath, targetClass, targetSection, hrole, hC, hS, pyStr]
  · simp [add_student_post, addPath, targetClass, targetSection, hrole, hname]

/-- C1 witness: a teacher assigned `("5", "A")` writes `Ann K.` to
`Classes/5/A/Ann_K_` no matter which class/section fields the two
requests carry. -/
theorem teacher_write_path_fixed_witness :
    ((add_student_post ⟨some "u1", some "tok", none, some "teacher", some "5", some "A"⟩
        ⟨some "9", some "Z", some "Ann K.", none, none, none, none⟩ 3 []).2
      = studentPath "5" "A"
          (student_key_from_name (pyStrip ((some "Ann K.").getD ""))) ∧
     (add_student_post ⟨some "u1", some "tok", none, some "teacher", some "5", some "A"⟩
        ⟨some "9", some "Z", some "Ann K.", none, none, none, none⟩ 3 []).2
      = (add_student_post ⟨some "u1", some "tok", none, some "teacher", some "5", some "A"⟩
          ⟨some "7", some "B", some "Ann K.", none, none, none, none⟩ 4 []).2) :=
  teacher_write_path_fixed
    ⟨some "u1", some "tok", none, some "teacher", some "5", some "A"⟩ "5" "A"
    rfl rfl rfl
    ⟨some "9", some "Z", some "Ann K.", none, none, none, none⟩
    ⟨some "7", some "B", some "Ann K.", none, none, none, none⟩ 3 4 [] [] rfl

/-- C2 counterexample: a counselor session posting a whitespace-only
class field is not rejected — a record is written all the same (at a path
with an empty class segment), refuting "if either trimmed value is empty,
the operation fails (no record is written)". -/
theorem nonteacher_empty_class_still_writes :
    pyStrip ((some "  ").getD "") = "" ∧
    (add_student_post ⟨some "c1", some "tok", none, some "counselor", some "", some ""⟩
        ⟨some "  ", some "B", some "Ann", none, none, none, none⟩ 7 []).1
      = [("Classes//B/Ann",
          ⟨"Ann", "", "", "", "", some "c1", 7⟩)] := by
  constructor
  · decide
  · rfl

/-- C2 amended: for a non-teacher session, `targetClass`/`targetSection`
are taken from the stripped caller-supplied form fields, with no
non-empty validation: the write proceeds unconditionally, even when
either trimmed value is empty. -/
theorem nonteacher_uses_caller_fields_unvalidated (sess : SessionState) (form : AddForm)
    (now : Nat) (st : Store) (hrole : sess.role ≠ some "teacher") :
    (add_student_post sess form now st).2
      = studentPath (pyStrip (form.classField.getD "")) (pyStrip (form.sectionField.getD ""))
          (student_key_from_name (pyStrip (form.nameField.getD ""))) ∧
    (add_student_post sess form now st).1.get (add_student_post sess form now st).2
      = some (addPayload sess form now) := by
  constructor
  · simp [add_student_post, addPath, targetClass, targetSection, hrole]
  · exact Store.get_set_self st (addPath sess form) (addPayload sess form now)

/-- C2 amended witness: a counselor session with a whitespace-only class
field still gets its record written at the degenerate path. -/
theorem nonteacher_uses_caller_fields_unvalidated_witness :
    ((add_student_post ⟨some "c1", some "tok", none, some "counselor", some "", some ""⟩
        ⟨some "  ", some "B", some "Ann", none, none, none, none⟩ 7 []).2
      = studentPath (pyStrip ((some "  ").getD "")) (pyStrip ((some "B").getD ""))
          (student_key_from_name (pyStrip ((some "Ann").getD ""))) ∧
     (add_student_post ⟨some "c1", some "tok", none, some "counselor", some "", some ""⟩
        ⟨some "  ", some "B", some "Ann", none, none, none, none⟩ 7 []).1.get
       (add_student_post ⟨some "c1", some "tok", none, some "counselor", some "", some ""⟩
        ⟨some "  ", some "B", some "Ann", none, none, none, none⟩ 7 []).2
      = some (addPayload ⟨some "c1", some "tok", none, some "counselor", some "", some ""⟩
          ⟨some "  ", some "B", some "Ann", none, none, none, none⟩ 7)) :=
  nonteacher_uses_caller_fields_unvalidated
    ⟨some "c1", some "tok", none, some "counselor", some "", some ""⟩
    ⟨some "  ", some "B", some "Ann", none, none, none, none⟩ 7 []
    (by decide)

/-- C5: `/add_student` is a full-replace write: after two successive
writes resolving to the same path (same class, section and derived key),
the record stored there is exactly the second write's payload — nothing
of the first write survives. -/
theorem add_student_full_replace (s1 s2 : SessionState) (f1 f2 : AddForm)
    (n1 n2 : Nat) (st : Store)
    (hpath : addPath s2 f2 = addPath s1 f1) :
    ((add_student_post s2 f2 n2 (add_student_post s1 f1 n1 st).1).1).get (addPath s2 f2)
      = some (addPayload s2 f2 n2) :=
  Store.get_set_self (add_student_post s1 f1 n1 st).1 (addPath s2 f2) (addPayload s2 f2 n2)

/-- C5 witness: writing `Ann` with notes, then again without notes, via
the same teacher session, leaves exactly the second payload (the notes
are gone, not merged). -/
theorem add_student_full_replace_witness :
    (addPath ⟨some "u1", some "tok", none, some "teacher", some "5", some "A"⟩
        ⟨none, none, some "Ann", none, none, none, none⟩
      = addPath ⟨some "u1", some "tok", none, some "teacher", some "5", some "A"⟩
        ⟨none, none, some "Ann", none, none, none, some "allergic"⟩) ∧
    ((add_student_post ⟨some "u1", some "tok", none, some "teacher", some "5", some "A"⟩
        ⟨none, none, some "Ann", none, none, none, none⟩ 9
        (add_student_post ⟨some "u1", some "tok", none, some "teacher", some "5", some "A"⟩
          ⟨none, none, some "Ann", none, none, none, some "allergic"⟩ 8 []).1).1).get
      (addPath ⟨some "u1", some "tok", none, some "teacher", some "5", some "A"⟩
        ⟨none, none, some "Ann", none, none, none, none⟩)
      = some (addPayload ⟨some "u1", some "tok", none, some "teacher", some "5", some "A"⟩
          ⟨none, none, some "Ann", none, none, none, none⟩ 9) :=
  ⟨rfl,
   add_student_full_replace
     ⟨some "u1", some "tok", none, some "teacher", some "5", some "A"⟩
     ⟨some "u1", some "tok", none, some "teacher", some "5", some "A"⟩
     ⟨none, none, some "Ann", none, none, none, some "allergic"⟩
     ⟨none, none, some "Ann", none, none, none, none⟩ 8 9 [] rfl⟩

/-- C6: `/dashboard` dispatch is binary: the counselor view is chosen
exactly when the session role is `"counselor"`, and every other role
value — `"teacher"`, unknown roles, or a missing role — goes to the
teacher view. -/
theorem dashboard_binary_dispatch (sess : SessionState) :
    (dashboard sess = DashboardTarget.counselorView ↔ sess.role = some "counselor") ∧
    (dashboard sess = DashboardTarget.teacherView ↔ sess.role ≠ some "counselor") := by
  unfold dashboard
  by_cases h : sess.role = some "counselor" <;> simp [h]

/-- C7: cross-role access fails closed without reading data: a
non-teacher session hitting `/teacher` gets the redirect with an empty
read trace, and a non-counselor session hitting `/counselor` likewise. -/
theorem cross_role_redirects_without_reads (s1 s2 : SessionState) (st : Store)
    (h1 : s1.role ≠ some "teacher") (h2 : s2.role ≠ some "counselor") :
    (teacher_dashboard s1 st).1 = PageResponse.redirectDashboard ∧
    (teacher_dashboard s1 st).2 = [] ∧
    (counselor_dashboard s2 st).1 = PageResponse.redirectDashboard ∧
    (counselor_dashboard s2 st).2 = [] := by
  unfold teacher_dashboard counselor_dashboard
  rw [if_pos h1, if_pos h2]
  exact ⟨rfl, rfl, rfl, rfl⟩

/-- C7 witness: a counselor session on `/teacher` and a teacher session
on `/counselor`, over a non-empty store, both redirect with no reads. -/
theorem cross_role_redirects_without_reads_witness :
    ((teacher_dashboard ⟨some "c1", some "t", none, some "counselor", some "", some ""⟩
        [("Classes/5/A/Ann", ⟨"Ann", "", "", "", "", some "u1", 1⟩)]).1
      = PageResponse.redirectDashboard ∧
     (teacher_dashboard ⟨some "c1", some "t", none, some "counselor", some "", some ""⟩
        [("Classes/5/A/Ann", ⟨"Ann", "", "", "", "", some "u1", 1⟩)]).2 = [] ∧
     (counselor_dashboard ⟨some "u1", some "t", none, some "teacher", some "5", some "A"⟩
        [("Classes/5/A/Ann", ⟨"Ann", "", "", "", "", some "u1", 1⟩)]).1
      = PageResponse.redirectDashboard ∧
     (counselor_dashboard ⟨some "u1", some "t", none, some "teacher", some "5", some "A"⟩
        [("Classes/5/A/Ann", ⟨"Ann", "", "", "", "", some "u1", 1⟩)]).2 = []) :=
  cross_role_redirects_without_reads
    ⟨some "c1", some "t", none, some "counselor", some "", some ""⟩
    ⟨some "u1", some "t", none, some "teacher", some "5", some "A"⟩
    [("Classes/5/A/Ann", ⟨"Ann", "", "", "", "", some "u1", 1⟩)]
    (by decide) (by decide)

/-- C9: a name that strips to the empty string derives the empty key, and
`/add_student` does not reject it: the record is still written, at a path
whose final segment is empty. -/
theorem blank_name_writes_empty_key (sess : SessionState) (form : AddForm)
    (now : Nat) (st : Store)
    (hname : pyStrip (form.nameField.getD "") = "") :
    student_key_from_name (form.nameField.getD "") = "" ∧
    addPath sess form
      = studentPath (targetClass sess form) (targetSection sess form) "" ∧
    (add_student_post sess form now st).1.get (addPath sess form)
      = some (addPayload sess form now) := by
  refine ⟨?_, ?_, ?_⟩
  · unfold student_key_from_name
    rw [hname]
    rfl
  · unfold addPath
    rw [hname]
    rfl
  · exact Store.get_set_self st (addPath sess form) (addPayload sess form now)

/-- C9 witness: a whitespace-only name from a teacher session is written
under the empty key. -/
theorem blank_name_writes_empty_key_witness :
    (student_key_from_name ((some "   ").getD "") = "" ∧
     addPath ⟨some "u1", some "tok", none, some "teacher", some "5", some "A"⟩
        ⟨none, none, some "   ", none, none, none, none⟩
      = studentPath
          (targetClass ⟨some "u1", some "tok", none, some "teacher", some "5", some "A"⟩
            ⟨none, none, some "   ", none, none, none, none⟩)
          (targetSection ⟨some "u1", some "tok", none, some "teacher", some "5", some "A"⟩
            ⟨none, none, some "   ", none, none, none, none⟩) "" ∧
     (add_student_post ⟨some "u1", some "tok", none, some "teacher", some "5", some "A"⟩
        ⟨none, none, some "   ", none, none, none, none⟩ 2 []).1.get
       (addPath ⟨some "u1", some "tok", none, some "teacher", some "5", some "A"⟩
        ⟨none, none, some "   ", none, none, none, none⟩)
      = some (addPayload ⟨some "u1", some "tok", none, some "teacher", some "5", some "A"⟩
          ⟨none, none, some "   ", none, none, none, none⟩ 2)) :=
  blank_name_writes_empty_key
    ⟨some "u1", some "tok", none, some "teacher", some "5", some "A"⟩
    ⟨none, none, some "   ", none, none, none, none⟩ 2 [] (by decide)
